import Mathlib

/-!
Verification development for the PYSINT bounded-concurrency probe engine
(`Brute-ForceScan.py`, `param-finder.py`, `directory-fuzzer.py`).

The Python sources are shallowly embedded: pure logic becomes Lean
functions, the network is an explicit oracle (`Nat → AttemptResult`
giving the result of each attempt), machine arithmetic is `Nat`/`Int`/`ℚ`,
and fallible operations return explicit result values.
-/

namespace PYSINT

/-- Substring occurrence on character lists (Python `in` on strings). -/
def listContains (hay needle : List Char) : Bool :=
  match hay with
  | [] => needle.isEmpty
  | _ :: t => needle.isPrefixOf hay || listContains t needle

/-- Case-insensitive substring test, embedding Python
`keyword.lower() in resp.text.lower()` (`Brute-ForceScan.py` line 81). -/
def containsCI (hay needle : String) : Bool :=
  listContains (hay.toList.map Char.toLower) (needle.toList.map Char.toLower)

/-- Python `s.startswith(p)` on strings. -/
def pyStartsWith (s p : String) : Bool :=
  p.toList.isPrefixOf s.toList

/-- The normalized response seen by the classifier: HTTP status code,
body text, and the number of redirects followed (`resp.history`). -/
structure Response where
  status : Nat
  text : String
  redirects : Nat
deriving DecidableEq, Repr

/-- The `success_check` dict of `Brute-ForceScan.py` (built in `main`,
lines 415-421), as a closed structure: optional keyword, redirect flag,
optional baseline status, optional baseline length, length threshold. -/
structure SuccessCheck where
  keyword : Option String
  allow_redirect : Bool
  baseline_status : Option Nat
  baseline_len : Option Nat
  len_threshold_pct : ℚ
deriving DecidableEq, Repr

/-- Reason codes attached to a hit, mirroring the `reason` strings built
in `attempt_login`; `lenDiff` carries the exact computed percentage. -/
inductive Reason where
  | keyword (w : String)
  | redirect
  | statusChange (old new : Nat)
  | lenDiff (pct : ℚ)
deriving DecidableEq, Repr

/-- One-decimal rendering of a (nonnegative) rational, embedding the
Python format `f"{pct:.1f}"` (round to nearest, exact halves are not hit
by the classifier's rationals of interest). -/
def fmt1 (q : ℚ) : String :=
  let n : ℤ := ⌊q * 10 + 1 / 2⌋
  toString (n / 10) ++ "." ++ toString (n % 10)

/-- The literal `reason` string put into the result dict. -/
def Reason.render : Reason → String
  | .keyword w => "keyword:" ++ w
  | .redirect => "redirect"
  | .statusChange o n => "status_change:" ++ toString o ++ "->" ++ toString n
  | .lenDiff pct => "len_diff:" ++ fmt1 pct ++ "%"

/-- Classification of a completed response: a hit with a reason, or a
miss (`attempt_login` returns `None`, line 134). -/
inductive Classification where
  | hit (r : Reason)
  | miss
deriving DecidableEq, Repr

/-- The percentage computed by rule 4 (`Brute-ForceScan.py` lines
120-121): `abs(len(resp.text) - baseline_len) / max(1, baseline_len) * 100`. -/
def lenPct (len baseline : Nat) : ℚ :=
  (|(len : ℤ) - (baseline : ℤ)| : ℤ) / max 1 (baseline : ℚ) * 100

/-- Rule 4 and fall-through (`Brute-ForceScan.py` lines 117-134). -/
def classifyLen (sc : SuccessCheck) (r : Response) : Classification :=
  match sc.baseline_len with
  | some bl =>
    let pct := lenPct r.text.length bl
    if sc.len_threshold_pct ≤ pct then .hit (.lenDiff pct) else .miss
  | none => .miss

/-- Rule 3 then rule 4 (`Brute-ForceScan.py` lines 104-115). -/
def classifyStatus (sc : SuccessCheck) (r : Response) : Classification :=
  match sc.baseline_status with
  | some bs =>
    if r.status ≠ bs then .hit (.statusChange bs r.status)
    else classifyLen sc r
  | none => classifyLen sc r

/-- Rule 2 then the rest (`Brute-ForceScan.py` lines 92-102). -/
def classifyRedirect (sc : SuccessCheck) (r : Response) : Classification :=
  if sc.allow_redirect && r.redirects ≠ 0 then .hit .redirect
  else classifyStatus sc r

/-- The full success-detection chain of `attempt_login`
(`Brute-ForceScan.py` lines 78-134): keyword, then redirect, then status
change, then length delta, each an early return; `None` (miss) if none
fires.  A keyword that is `None` or empty is falsy in Python and skips
rule 1. -/
def classify (sc : SuccessCheck) (r : Response) : Classification :=
  match sc.keyword with
  | some k =>
    if k ≠ "" && containsCI r.text k then .hit (.keyword k)
    else classifyRedirect sc r
  | none => classifyRedirect sc r

/-! Independent per-rule predicates (each `none` when its configuration
is absent or it does not match), used to state the precedence claim. -/

/-- Rule 1 viewed in isolation: fires iff a non-empty keyword is
configured and occurs case-insensitively in the body. -/
def ruleKeyword (sc : SuccessCheck) (r : Response) : Option Reason :=
  match sc.keyword with
  | some k => if k ≠ "" && containsCI r.text k then some (.keyword k) else none
  | none => none

/-- Rule 2 viewed in isolation: fires iff redirects count as success and
at least one redirect happened. -/
def ruleRedirect (sc : SuccessCheck) (r : Response) : Option Reason :=
  if sc.allow_redirect && r.redirects ≠ 0 then some .redirect else none

/-- Rule 3 viewed in isolation: fires iff a baseline status was captured
and the response status differs. -/
def ruleStatus (sc : SuccessCheck) (r : Response) : Option Reason :=
  match sc.baseline_status with
  | some bs => if r.status ≠ bs then some (.statusChange bs r.status) else none
  | none => none

/-- Rule 4 viewed in isolation: fires iff a baseline length was captured
and the percentage delta reaches the threshold. -/
def ruleLen (sc : SuccessCheck) (r : Response) : Option Reason :=
  match sc.baseline_len with
  | some bl =>
    if sc.len_threshold_pct ≤ lenPct r.text.length bl
    then some (.lenDiff (lenPct r.text.length bl)) else none
  | none => none

/-! ## Probe executor (`attempt_login`, `Brute-ForceScan.py` lines 64-158)

The network is an oracle `probe : Nat → AttemptResult` giving, for each
attempt index, what the request does: complete with a response, raise a
transient error (`httpx.RequestError` / `httpx.ReadTimeout`), or raise
any other exception. -/

/-- What one network attempt does. -/
inductive AttemptResult where
  | completed (r : Response)
  | transient (err : String)
  | fatal (ty msg : String)
deriving DecidableEq, Repr

/-- The normalized result of `attempt_login` for one candidate:
a hit dict, `None` (miss), a `request_error` dict after exhausting
retries, or an `error:<Type>` dict for an unexpected exception. -/
inductive Outcome where
  | hit (rn : Reason) (status : Nat) (respLen : Nat)
  | miss
  | requestError (err : String)
  | unexpected (ty msg : String)
deriving DecidableEq, Repr

/-- The `reason` field of the returned dict (`none` for the `None`
return at line 134). -/
def Outcome.reasonField : Outcome → Option String
  | .hit rn _ _ => some rn.render
  | .miss => none
  | .requestError _ => some "request_error"
  | .unexpected ty _ => some ("error:" ++ ty)

/-- Lift a classification of a completed response to an outcome. -/
def outcomeOfResponse (sc : SuccessCheck) (r : Response) : Outcome :=
  match classify sc r with
  | .hit rn => .hit rn r.status r.text.length
  | .miss => .miss

/-- Observable behavior of one `attempt_login` call: the single outcome,
the backoff sleeps performed, and the number of attempts made. -/
structure ExecTrace where
  outcome : Outcome
  sleeps : List ℚ
  attempts : Nat
deriving DecidableEq, Repr

/-- The retry loop `for attempt in range(retries + 1)` of
`attempt_login` (lines 65-158), by recursion on the remaining extra
attempts: `fuel` is `retries - attempt`, so `fuel = 0` means
`attempt = retries` and a transient error is final; otherwise the loop
sleeps `backoff * (attempt + 1)` and retries. -/
def runAttempts (sc : SuccessCheck) (backoff : ℚ) (probe : Nat → AttemptResult) :
    Nat → Nat → ExecTrace
  | fuel, attempt =>
    match probe attempt with
    | .completed r => ⟨outcomeOfResponse sc r, [], 1⟩
    | .fatal ty msg => ⟨.unexpected ty msg, [], 1⟩
    | .transient e =>
      match fuel with
      | 0 => ⟨.requestError e, [], 1⟩
      | fuel' + 1 =>
        let t := runAttempts sc backoff probe fuel' (attempt + 1)
        ⟨t.outcome, backoff * (attempt + 1) :: t.sleeps, t.attempts + 1⟩

/-- `attempt_login` for one candidate: the loop starts at attempt 0 with
`retries` extra attempts available. -/
def attempt_login (sc : SuccessCheck) (retries : Nat) (backoff : ℚ)
    (probe : Nat → AttemptResult) : ExecTrace :=
  runAttempts sc backoff probe retries 0

/-- The backoff sleep performed after the (failed) attempt at 0-based
index `i`: `backoff * (attempt + 1)` in the source (line 140). -/
def sleepAt (backoff : ℚ) (i : Nat) : ℚ :=
  backoff * ((i + 1 : Nat) : ℚ)

/-! ## Candidate generation and the scan runner
(`run_bruteforce`, `Brute-ForceScan.py` lines 162-211) -/

/-- The nested loops `for u in usernames: for p in passwords:` of
`run_bruteforce` (lines 185-192), one task per combination. -/
def candidates (usernames passwords : List String) : List (String × String) :=
  usernames.flatMap (fun u => passwords.map (fun p => (u, p)))

/-- `combos = len(usernames) * len(passwords)` (line 180), the total
reported to the progress bar (line 204). -/
def combos (usernames passwords : List String) : Nat :=
  usernames.length * passwords.length

/-- All outcomes produced by the scan, one `attempt_login` per
candidate; `probeOf` gives each candidate's per-attempt network
behavior. -/
def scanOutcomes (sc : SuccessCheck) (retries : Nat) (backoff : ℚ)
    (probeOf : String × String → Nat → AttemptResult)
    (cands : List (String × String)) : List Outcome :=
  cands.map (fun c => (attempt_login sc retries backoff (probeOf c)).outcome)

/-- The append filter of `run_bruteforce` (line 208): keep `res` iff it
is truthy, has a `reason`, and the reason does not start with
`request_error` or `error:`. -/
def keptByRunner (o : Outcome) : Bool :=
  match o.reasonField with
  | none => false
  | some rs => !(pyStartsWith rs "request_error" || pyStartsWith rs "error:")

/-- `run_bruteforce`: the `results` list returned to `main` and handed
to `save_results_json_csv` (lines 205-211) — only the kept outcomes. -/
def run_bruteforce (sc : SuccessCheck) (retries : Nat) (backoff : ℚ)
    (probeOf : String × String → Nat → AttemptResult)
    (usernames passwords : List String) : List Outcome :=
  (scanOutcomes sc retries backoff probeOf (candidates usernames passwords)).filter
    keptByRunner

/-! ## `param-finder.py`: `test_param` and `scan_parameters` -/

/-- Network behavior of one parameter probe in `param-finder.py`. -/
inductive ParamProbe where
  | ok (status : Nat)
  | reqErr (err : String)
  | exc (ty msg : String)
deriving DecidableEq, Repr

/-- The result dict built by `test_param` (`param-finder.py` lines
48-113): always returned, with `is_active` true iff the call completed
with status < 400, and an `error` field on failure. -/
structure ParamOutcome where
  param : String
  status : Option Nat
  is_active : Bool
  err : Option String
deriving DecidableEq, Repr

/-- `test_param` for one parameter. -/
def test_param (probe : String → ParamProbe) (p : String) : ParamOutcome :=
  match probe p with
  | .ok st => ⟨p, some st, decide (st < 400), none⟩
  | .reqErr e => ⟨p, none, false, some ("RequestError: " ++ e)⟩
  | .exc ty msg => ⟨p, none, false, some (ty ++ ": " ++ msg)⟩

/-- `scan_parameters` (`param-finder.py` lines 117-153): every completed
probe's result is appended to `results`, and additionally to
`active_params` when `is_active`; returns `(active_params, results)`. -/
def scan_parameters (probe : String → ParamProbe) (params : List String) :
    List ParamOutcome × List ParamOutcome :=
  let results := params.map (test_param probe)
  (results.filter (fun r => r.is_active), results)

/-! ## Wordlist loading (`load_wordlist`, identical in
`Brute-ForceScan.py` lines 215-225, `param-finder.py` lines 157-170 and
`directory-fuzzer.py` lines 141-154) -/

/-- Drop leading whitespace characters. -/
def dropLeadingWS : List Char → List Char
  | [] => []
  | c :: t => if c.isWhitespace then dropLeadingWS t else c :: t

/-- Python `line.strip()`: remove leading and trailing whitespace. -/
def pyStrip (s : String) : String :=
  ⟨(dropLeadingWS (dropLeadingWS s.data).reverse).reverse⟩

/-- The comprehension `[line.strip() for line in f if line.strip()]`:
keep lines whose stripped form is non-empty, stripped. -/
def load_wordlist (lines : List String) (limit : Int) : List String :=
  let ls := (lines.filter (fun l => pyStrip l ≠ "")).map pyStrip
  if 0 < limit then ls.take limit.toNat else ls

/-- The spec-side description of the usable entries of a wordlist: the
lines stripped, with blank (whitespace-only) lines dropped. -/
def usableLines (lines : List String) : List String :=
  (lines.map pyStrip).filter (fun s => s ≠ "")

/-- The effective axis length under an optional cap (`0` or a negative
value meaning no cap, mirroring `limit > 0`). -/
def capLen (m : Nat) (limit : Int) : Nat :=
  if 0 < limit then min m limit.toNat else m

/-- A wordlist file as the loader sees it: `none` for a missing or
unreadable file (the `except` branches return `[]`), `some lines`
otherwise. -/
def load_wordlist_file (file : Option (List String)) (limit : Int) : List String :=
  match file with
  | none => []
  | some lines => load_wordlist lines limit

/-! ## The CLI-mode control flow of `main`
(`Brute-ForceScan.py` lines 361-435) as an event trace -/

/-- Externally observable events of one run of `main`. -/
inductive Event where
  | net_baseline
  | report_nothing
  | net_probe (u p : String)
deriving DecidableEq, Repr

/-- Whether an event is network activity. -/
def Event.isNetwork : Event → Bool
  | .net_baseline => true
  | .net_probe _ _ => true
  | .report_nothing => false

/-- The event trace of CLI-mode `main`: the baseline auto-probe happens
first when no success keyword is set and `--no-baseline` is absent
(lines 387-399); then the wordlists are loaded (lines 408-409); an empty
axis prints the nothing-to-do report and returns (lines 411-413);
otherwise `run_bruteforce` issues one probe per candidate. -/
def mainEvents (kw : Option String) (noBaseline : Bool)
    (uf pf : Option (List String)) (mu mp : Int) : List Event :=
  let pre := if (kw.getD "" == "") && !noBaseline then [Event.net_baseline] else []
  let usernames := load_wordlist_file uf mu
  let passwords := load_wordlist_file pf mp
  if usernames.isEmpty || passwords.isEmpty then
    pre ++ [Event.report_nothing]
  else
    pre ++ (candidates usernames passwords).map (fun c => Event.net_probe c.1 c.2)

/-! ## The concurrency dispatcher
(`asyncio.Semaphore(max_concurrent)`, `run_bruteforce` line 178, held
around each probe by `async with semaphore` in `attempt_login` line 64)

The semaphore discipline is modelled as a transition system over
counters: a task acquires a permit (only when one is free) before its
probe runs and releases it when the probe finishes; `running` counts the
probes currently executing their network call. -/

/-- Counters of the dispatcher: free permits, tasks not yet started,
probes currently inside the semaphore, finished probes. -/
structure DispatchState where
  permits : Nat
  waiting : Nat
  running : Nat
  finished : Nat
deriving DecidableEq, Repr

/-- Initial state: `C` permits (`asyncio.Semaphore(max_concurrent)`),
`n` tasks created, none running. -/
def initDispatch (c n : Nat) : DispatchState :=
  ⟨c, n, 0, 0⟩

/-- One scheduler step: a waiting task acquires a free permit and starts
its probe, or a running probe finishes and releases its permit. -/
inductive DispatchStep : DispatchState → DispatchState → Prop
  | acquire (s : DispatchState) (hw : 0 < s.waiting) (hp : 0 < s.permits) :
      DispatchStep s ⟨s.permits - 1, s.waiting - 1, s.running + 1, s.finished⟩
  | release (s : DispatchState) (hr : 0 < s.running) :
      DispatchStep s ⟨s.permits + 1, s.waiting, s.running - 1, s.finished + 1⟩

/-- States reachable during a scan with ceiling `c` over `n` tasks. -/
def DispatchReachable (c n : Nat) (s : DispatchState) : Prop :=
  Relation.ReflTransGen DispatchStep (initDispatch c n) s

/-- Elimination of an `orElse` chain, used to relate the sequential
early-return classifier to the isolated rules. -/
theorem option_elim_orElse {α β : Type} (a b : Option α) (d : β) (f : α → β) :
    (a <|> b).elim d f = a.elim (b.elim d f) f := by
  cases a <;> rfl

/-- Stage 4 of the classifier agrees with rule 4 in isolation. -/
theorem classifyLen_eq_rule (sc : SuccessCheck) (r : Response) :
    classifyLen sc r = (ruleLen sc r).elim Classification.miss Classification.hit := by
  cases h : sc.baseline_len with
  | none => simp [classifyLen, ruleLen, h]
  | some bl =>
    simp only [classifyLen, ruleLen, h]
    split <;> rfl

/-- Stage 3 of the classifier agrees with rule 3 followed by stage 4. -/
theorem classifyStatus_eq_rule (sc : SuccessCheck) (r : Response) :
    classifyStatus sc r = (ruleStatus sc r).elim (classifyLen sc r) Classification.hit := by
  cases h : sc.baseline_status with
  | none => simp [classifyStatus, ruleStatus, h]
  | some bs =>
    simp only [classifyStatus, ruleStatus, h]
    split <;> rfl

/-- Stage 2 of the classifier agrees with rule 2 followed by stage 3. -/
theorem classifyRedirect_eq_rule (sc : SuccessCheck) (r : Response) :
    classifyRedirect sc r = (ruleRedirect sc r).elim (classifyStatus sc r) Classification.hit := by
  simp only [classifyRedirect, ruleRedirect]
  split <;> rfl

/-- Stage 1 of the classifier agrees with rule 1 followed by stage 2. -/
theorem classify_eq_rule (sc : SuccessCheck) (r : Response) :
    classify sc r = (ruleKeyword sc r).elim (classifyRedirect sc r) Classification.hit := by
  cases h : sc.keyword with
  | none => simp [classify, ruleKeyword, h]
  | some k =>
    simp only [classify, ruleKeyword, h]
    split <;> rfl

/-- The classifier equals the short-circuiting orElse chain of the four
isolated rules, with `miss` as the default. -/
theorem classify_eq_chain (sc : SuccessCheck) (r : Response) :
    classify sc r =
      (ruleKeyword sc r <|> ruleRedirect sc r <|> ruleStatus sc r <|> ruleLen sc r).elim
        Classification.miss Classification.hit := by
  rw [classify_eq_rule, classifyRedirect_eq_rule, classifyStatus_eq_rule, classifyLen_eq_rule,
    option_elim_orElse, option_elim_orElse, option_elim_orElse]

/-- C1. The classifier evaluates the success rules in the fixed order
keyword, redirect, status change, length delta; the first matching rule
wins and later rules are not evaluated, a rule whose configuration is
absent is skipped (its isolated rule yields `none`), and the result is
`miss` when no rule fires.  In particular a response matching both a
configured keyword and a baseline status change is classified by the
keyword, never by the status change. -/
theorem c1_classifier_precedence (sc : SuccessCheck) (r : Response) :
    classify sc r =
      (ruleKeyword sc r <|> ruleRedirect sc r <|> ruleStatus sc r <|> ruleLen sc r).elim
        Classification.miss Classification.hit
    ∧ (∀ k, sc.keyword = some k → k ≠ "" → containsCI r.text k = true →
        ∀ bs, sc.baseline_status = some bs → r.status ≠ bs →
          classify sc r = .hit (.keyword k)) := by
  refine ⟨classify_eq_chain sc r, fun k hk hne hc bs _ _ => ?_⟩
  have hr : ruleKeyword sc r = some (.keyword k) := by
    simp [ruleKeyword, hk, hne, hc]
  rw [classify_eq_chain, hr]
  rfl

/-- Witness for C1 at a concrete configuration and response: keyword
`"ok"` is configured and present, the baseline status `500` differs from
the response status `200`, yet the classification reason is the keyword. -/
theorem c1_classifier_precedence_witness :
    classify ⟨some "ok", true, some 500, some 100, 20⟩ ⟨200, "All OK here", 1⟩ =
      .hit (.keyword "ok") :=
  (c1_classifier_precedence ⟨some "ok", true, some 500, some 100, 20⟩
      ⟨200, "All OK here", 1⟩).2 "ok" rfl (by decide) (by decide) 500 rfl (by decide)

/-- When rules 1-3 do not fire, classification is decided by the
length-delta threshold test alone. -/
theorem classify_len_only (sc : SuccessCheck) (r : Response) (b : Nat)
    (h1 : ruleKeyword sc r = none) (h2 : ruleRedirect sc r = none)
    (h3 : ruleStatus sc r = none) (hb : sc.baseline_len = some b) :
    classify sc r =
      if sc.len_threshold_pct ≤ lenPct r.text.length b
      then .hit (.lenDiff (lenPct r.text.length b)) else .miss := by
  rw [classify_eq_chain, h1, h2, h3]
  simp only [Option.none_orElse, ruleLen, hb]
  split <;> rfl

/-- C4. With captured baseline length `b` and configured threshold `t`,
a completed response on which no earlier rule fires is a hit with reason
`len_diff:<pct>%` iff `|L - b| / max 1 b * 100 ≥ t`; with `b = 100` and
`t = 20`: length 119 is a miss, length 120 a hit with reason
`len_diff:20.0%`, length 80 a hit, and length 81 a miss. -/
theorem c4_length_delta_boundary (sc : SuccessCheck) (r : Response) (b : Nat)
    (h1 : ruleKeyword sc r = none) (h2 : ruleRedirect sc r = none)
    (h3 : ruleStatus sc r = none) (hb : sc.baseline_len = some b) :
    (classify sc r = .hit (.lenDiff (lenPct r.text.length b)) ↔
        sc.len_threshold_pct ≤ lenPct r.text.length b)
    ∧ (¬ sc.len_threshold_pct ≤ lenPct r.text.length b → classify sc r = .miss)
    ∧ (b = 100 → sc.len_threshold_pct = 20 →
        (r.text.length = 119 → classify sc r = .miss)
        ∧ (r.text.length = 120 →
            classify sc r = .hit (.lenDiff 20)
            ∧ (Reason.lenDiff 20).render = "len_diff:20.0%")
        ∧ (r.text.length = 80 → classify sc r = .hit (.lenDiff 20))
        ∧ (r.text.length = 81 → classify sc r = .miss)) := by
  have key := classify_len_only sc r b h1 h2 h3 hb
  refine ⟨?_, ?_, ?_⟩
  · constructor
    · intro hhit
      by_contra hnot
      rw [key, if_neg hnot] at hhit
      exact Classification.noConfusion hhit
    · intro hle
      rw [key, if_pos hle]
  · intro hnot
    rw [key, if_neg hnot]
  · rintro rfl ht
    have render20 : (Reason.lenDiff 20).render = "len_diff:20.0%" := by
      simp only [Reason.render, fmt1]
      rw [show ⌊(20 : ℚ) * 10 + 1 / 2⌋ = 200 by norm_num]
      decide
    refine ⟨?_, ?_, ?_, ?_⟩
    · intro hL
      rw [key, hL, ht]
      norm_num [lenPct]
    · intro hL
      rw [key, hL, ht]
      norm_num [lenPct]
      exact render20
    · intro hL
      rw [key, hL, ht]
      norm_num [lenPct]
    · intro hL
      rw [key, hL, ht]
      norm_num [lenPct]

/-- Witness for C4 at baseline 100, threshold 20 and a concrete
120-character response: a hit with reason `len_diff:20.0%`. -/
theorem c4_length_delta_boundary_witness :
    classify ⟨none, false, none, some 100, 20⟩
        ⟨200, String.mk (List.replicate 120 'a'), 0⟩ =
      .hit (.lenDiff 20)
    ∧ (Reason.lenDiff 20).render = "len_diff:20.0%" :=
  ((c4_length_delta_boundary ⟨none, false, none, some 100, 20⟩
      ⟨200, String.mk (List.replicate 120 'a'), 0⟩ 100
      rfl rfl rfl rfl).2.2 rfl rfl).2.1 (by decide)

/-- Counterexample to C9 as stated: with baseline length 0, threshold 0
(which is at most 100), and a length-0 response on which no earlier rule
fires, the classifier returns a hit (`len_diff:0.0%`), not a miss,
because `0 ≥ 0` satisfies the threshold test. -/
theorem c9_zero_baseline_cex :
    ((0 : ℚ) ≤ 100)
    ∧ ruleKeyword ⟨none, false, none, some 0, 0⟩ ⟨200, "", 0⟩ = none
    ∧ ruleRedirect ⟨none, false, none, some 0, 0⟩ ⟨200, "", 0⟩ = none
    ∧ ruleStatus ⟨none, false, none, some 0, 0⟩ ⟨200, "", 0⟩ = none
    ∧ (⟨200, "", 0⟩ : Response).text.length = 0
    ∧ classify ⟨none, false, none, some 0, 0⟩ ⟨200, "", 0⟩ = .hit (.lenDiff 0) := by
  refine ⟨by norm_num, rfl, rfl, rfl, rfl, ?_⟩
  rw [classify_len_only ⟨none, false, none, some 0, 0⟩ ⟨200, "", 0⟩ 0 rfl rfl rfl rfl]
  norm_num [lenPct]

/-- C9 (amended: the length-0-response-is-a-miss part additionally needs
a positive threshold).  With a captured baseline length of 0 the divisor
is `max 1 0 = 1`, so the computed percentage is `len(current) * 100`;
hence when no earlier rule fires and the threshold is at most 100, every
response of length at least 1 is a hit, and — when the threshold is
positive — a length-0 response is a miss. -/
theorem c9_zero_baseline (sc : SuccessCheck) (r : Response)
    (h1 : ruleKeyword sc r = none) (h2 : ruleRedirect sc r = none)
    (h3 : ruleStatus sc r = none) (hb : sc.baseline_len = some 0) :
    lenPct r.text.length 0 = (r.text.length : ℚ) * 100
    ∧ (sc.len_threshold_pct ≤ 100 → 1 ≤ r.text.length →
        classify sc r = .hit (.lenDiff ((r.text.length : ℚ) * 100)))
    ∧ (0 < sc.len_threshold_pct → r.text.length = 0 → classify sc r = .miss) := by
  have key := classify_len_only sc r 0 h1 h2 h3 hb
  have hpct : lenPct r.text.length 0 = (r.text.length : ℚ) * 100 := by
    simp [lenPct]
  refine ⟨hpct, ?_, ?_⟩
  · intro ht hlen
    have hge : sc.len_threshold_pct ≤ lenPct r.text.length 0 := by
      rw [hpct]
      calc sc.len_threshold_pct ≤ 100 := ht
        _ = 1 * 100 := by norm_num
        _ ≤ (r.text.length : ℚ) * 100 := by
            have : (1 : ℚ) ≤ (r.text.length : ℚ) := by exact_mod_cast hlen
            nlinarith
    rw [key, if_pos hge, hpct]
  · intro htpos hlen
    have hlt : ¬ sc.len_threshold_pct ≤ lenPct r.text.length 0 := by
      rw [hpct, hlen]
      push_cast
      simpa using htpos
    rw [key, if_neg hlt]

/-- Witness for the amended C9: baseline length 0, threshold 20 (at most
100 and positive); a 1-character response is a hit with percentage 100,
and the empty response is a miss. -/
theorem c9_zero_baseline_witness :
    classify ⟨none, false, none, some 0, 20⟩ ⟨200, "x", 0⟩ =
      .hit (.lenDiff ((("x".length : ℚ)) * 100))
    ∧ classify ⟨none, false, none, some 0, 20⟩ ⟨200, "", 0⟩ = .miss :=
  ⟨(c9_zero_baseline ⟨none, false, none, some 0, 20⟩ ⟨200, "x", 0⟩
      rfl rfl rfl rfl).2.1 (by norm_num) (by decide),
   (c9_zero_baseline ⟨none, false, none, some 0, 20⟩ ⟨200, "", 0⟩
      rfl rfl rfl rfl).2.2 (by norm_num) rfl⟩

/-- Unfolding `runAttempts` when every attempt in scope is transient:
the loop consumes all its fuel, sleeping `backoff * (i + 1)` after the
attempt at index `i`, and ends with the last error. -/
theorem runAttempts_all_transient (sc : SuccessCheck) (backoff : ℚ)
    (probe : Nat → AttemptResult) (e : Nat → String) :
    ∀ fuel attempt,
      (∀ i, attempt ≤ i → i ≤ attempt + fuel → probe i = .transient (e i)) →
      runAttempts sc backoff probe fuel attempt =
        ⟨.requestError (e (attempt + fuel)),
          (List.range fuel).map (fun j => sleepAt backoff (attempt + j)),
          fuel + 1⟩ := by
  intro fuel
  induction fuel with
  | zero =>
    intro attempt h
    have h0 := h attempt le_rfl (by omega)
    simp [runAttempts, h0]
  | succ fuel' ih =>
    intro attempt h
    have h0 := h attempt le_rfl (by omega)
    have hrec := ih (attempt + 1) (fun i hi hi2 => h i (by omega) (by omega))
    have hidx : attempt + 1 + fuel' = attempt + (fuel' + 1) := by omega
    rw [hidx] at hrec
    simp only [runAttempts, h0, hrec]
    congr 1
    rw [List.range_succ_eq_map, List.map_cons, List.map_map]
    congr 1
    · simp only [sleepAt]
      push_cast
      ring
    · apply List.map_congr_left
      intro j _
      simp only [Function.comp_apply, sleepAt]
      push_cast
      ring

/-- C3. A candidate whose probe raises a transient error on every
attempt is attempted exactly `retries + 1` times, sleeping
`backoff * 1` before the 2nd attempt, `backoff * 2` before the 3rd, and
so on, and yields one `request_error` outcome carrying the last error's
description. -/
theorem c3_transient_retries (sc : SuccessCheck) (retries : Nat) (backoff : ℚ)
    (probe : Nat → AttemptResult) (e : Nat → String)
    (h : ∀ i, i ≤ retries → probe i = .transient (e i)) :
    attempt_login sc retries backoff probe =
      ⟨.requestError (e retries),
        (List.range retries).map (fun j => sleepAt backoff j),
        retries + 1⟩ := by
  have key := runAttempts_all_transient sc backoff probe e retries 0
    (fun i hi hi2 => h i (by omega))
  simpa [attempt_login] using key

/-- Witness for C3: retries 2, backoff 1, all three attempts failing
transiently; the single outcome carries the third error, the sleeps are
`1*1` and `1*2`, and exactly 3 attempts are made. -/
theorem c3_transient_retries_witness :
    attempt_login ⟨none, false, none, none, 20⟩ 2 1
        (fun i => .transient ("boom" ++ toString i)) =
      ⟨.requestError ("boom" ++ toString 2),
        (List.range 2).map (fun j => sleepAt 1 j), 2 + 1⟩ :=
  c3_transient_retries ⟨none, false, none, none, 20⟩ 2 1
    (fun i => .transient ("boom" ++ toString i)) (fun i => "boom" ++ toString i)
    (fun _ _ => rfl)

/-- C8. A probe attempt that raises a non-transient exception is never
retried: after any run of transient errors, the first fatal attempt
immediately ends the loop with an `error:<Type>` outcome carrying the
exception's description, performing no further attempt. -/
theorem c8_fatal_no_retry (sc : SuccessCheck) (retries : Nat) (backoff : ℚ)
    (probe : Nat → AttemptResult) (e : Nat → String) (j : Nat) (ty msg : String)
    (hj : j ≤ retries)
    (hbefore : ∀ i, i < j → probe i = .transient (e i))
    (hfatal : probe j = .fatal ty msg) :
    attempt_login sc retries backoff probe =
      ⟨.unexpected ty msg,
        (List.range j).map (fun i => sleepAt backoff i),
        j + 1⟩
    ∧ (∀ (probeOf : String × String → Nat → AttemptResult)
        (cs1 cs2 : List (String × String)) (c : String × String),
        scanOutcomes sc retries backoff probeOf (cs1 ++ c :: cs2) =
          scanOutcomes sc retries backoff probeOf cs1
            ++ (attempt_login sc retries backoff (probeOf c)).outcome
              :: scanOutcomes sc retries backoff probeOf cs2) := by
  refine ⟨?_, fun probeOf cs1 cs2 c => by simp [scanOutcomes]⟩
  unfold attempt_login
  have main : ∀ j fuel attempt, j + attempt ≤ attempt + fuel →
      (∀ i, attempt ≤ i → i < attempt + j → probe i = .transient (e i)) →
      probe (attempt + j) = .fatal ty msg →
      runAttempts sc backoff probe fuel attempt =
        ⟨.unexpected ty msg,
          (List.range j).map (fun i => sleepAt backoff (attempt + i)),
          j + 1⟩ := by
    intro j
    induction j with
    | zero =>
      intro fuel attempt hle hb hf
      simp only [Nat.add_zero] at hf
      cases fuel <;> simp [runAttempts, hf]
    | succ j' ih =>
      intro fuel attempt hle hb hf
      have h0 : probe attempt = .transient (e attempt) :=
        hb attempt le_rfl (by omega)
      cases fuel with
      | zero => omega
      | succ fuel' =>
        have hrec := ih fuel' (attempt + 1) (by omega)
          (fun i hi hi2 => hb i (by omega) (by omega))
          (by rw [show attempt + 1 + j' = attempt + (j' + 1) by omega]; exact hf)
        simp only [runAttempts, h0, hrec]
        congr 1
        rw [List.range_succ_eq_map, List.map_cons, List.map_map]
        congr 1
        · simp only [sleepAt]
          push_cast
          ring
        · apply List.map_congr_left
          intro _ _
          simp only [Function.comp_apply, sleepAt]
          push_cast
          ring
  have key := main j retries 0 (by omega)
    (fun i hi hi2 => hbefore i (by omega))
    (by simpa using hfatal)
  simpa using key

/-- Witness for C8: the first attempt raises `ValueError`; exactly one
attempt is made, no sleeps, and the outcome is the `error:ValueError`
record. -/
theorem c8_fatal_no_retry_witness :
    attempt_login ⟨none, false, none, none, 20⟩ 2 1
        (fun _ => .fatal "ValueError" "bad value") =
      ⟨.unexpected "ValueError" "bad value",
        (List.range 0).map (fun i => sleepAt 1 i), 0 + 1⟩ :=
  (c8_fatal_no_retry ⟨none, false, none, none, 20⟩ 2 1
    (fun _ => .fatal "ValueError" "bad value") (fun _ => "") 0 "ValueError" "bad value"
    (by omega) (fun i hi => absurd hi (by omega)) rfl).1

/-- No hit reason string starts with `request_error` or `error:`, so
hits always pass the runner's filter. -/
theorem render_no_err_prefixes (rn : Reason) :
    pyStartsWith rn.render "request_error" = false
    ∧ pyStartsWith rn.render "error:" = false := by
  cases rn <;> exact ⟨rfl, rfl⟩

/-- The runner's append filter keeps exactly the hit outcomes: misses
are falsy (`None`) and both error shapes are excluded by the
`startswith` test. -/
theorem keptByRunner_iff (o : Outcome) :
    keptByRunner o = true ↔ ∃ rn st ln, o = .hit rn st ln := by
  cases o with
  | hit rn st ln =>
    simp [keptByRunner, Outcome.reasonField, (render_no_err_prefixes rn).1,
      (render_no_err_prefixes rn).2]
  | miss => simp [keptByRunner, Outcome.reasonField]
  | requestError e =>
    simp [keptByRunner, Outcome.reasonField,
      show pyStartsWith "request_error" "request_error" = true from rfl]
  | unexpected ty msg =>
    have h : pyStartsWith ("error:" ++ ty) "error:" = true := by
      simp [pyStartsWith, String.toList]
    simp [keptByRunner, Outcome.reasonField, h]

/-- Counterexample to C2 as stated for `Brute-ForceScan.py`: one
candidate whose probe always fails transiently produces one
`request_error` outcome internally, but `run_bruteforce` hands an empty
list to the report/persistence step — not one outcome per candidate. -/
theorem c2_outcome_per_candidate_cex :
    (candidates ["admin"] ["123"]).length = 1
    ∧ scanOutcomes ⟨none, false, none, none, 20⟩ 2 1 (fun _ _ => .transient "timeout")
        (candidates ["admin"] ["123"]) = [.requestError "timeout"]
    ∧ run_bruteforce ⟨none, false, none, none, 20⟩ 2 1 (fun _ _ => .transient "timeout")
        ["admin"] ["123"] = []
    ∧ (run_bruteforce ⟨none, false, none, none, 20⟩ 2 1 (fun _ _ => .transient "timeout")
          ["admin"] ["123"]).length ≠ (candidates ["admin"] ["123"]).length :=
  ⟨by decide, by decide, by decide, by decide⟩

/-- C2 (amended: the one-outcome-per-candidate list reaches persistence
in `param-finder.py`, but `Brute-ForceScan.py`'s `run_bruteforce` hands
over only the hits, dropping misses and error outcomes).
`scan_parameters` returns one outcome per parameter, including probe
errors; the brute-forcer produces one outcome per candidate internally
but its reported `results` list is exactly the hit subset. -/
theorem c2_outcome_reporting (probe : String → ParamProbe) (params : List String)
    (sc : SuccessCheck) (retries : Nat) (backoff : ℚ)
    (probeOf : String × String → Nat → AttemptResult) (us ps : List String) :
    ((scan_parameters probe params).2).length = params.length
    ∧ (∀ p, p ∈ params → test_param probe p ∈ (scan_parameters probe params).2)
    ∧ (scanOutcomes sc retries backoff probeOf (candidates us ps)).length =
        (candidates us ps).length
    ∧ run_bruteforce sc retries backoff probeOf us ps =
        (scanOutcomes sc retries backoff probeOf (candidates us ps)).filter keptByRunner
    ∧ (∀ o, keptByRunner o = true ↔ ∃ rn st ln, o = .hit rn st ln) := by
  refine ⟨by simp [scan_parameters], ?_, by simp [scanOutcomes], rfl,
    fun o => keptByRunner_iff o⟩
  intro p hp
  simpa [scan_parameters] using List.mem_map_of_mem (test_param probe) hp

/-- Witness for the amended C2: a single parameter whose probe raises a
connection error still contributes its (error-carrying) outcome to the
results list handed to persistence. -/
theorem c2_outcome_reporting_witness :
    ((scan_parameters (fun _ => ParamProbe.reqErr "refused") ["id"]).2).length = 1
    ∧ test_param (fun _ => ParamProbe.reqErr "refused") "id" ∈
        (scan_parameters (fun _ => ParamProbe.reqErr "refused") ["id"]).2 :=
  ⟨(c2_outcome_reporting (fun _ => ParamProbe.reqErr "refused") ["id"]
      ⟨none, false, none, none, 20⟩ 0 1 (fun _ _ => .transient "x") [] []).1,
   (c2_outcome_reporting (fun _ => ParamProbe.reqErr "refused") ["id"]
      ⟨none, false, none, none, 20⟩ 0 1 (fun _ _ => .transient "x") [] []).2.1 "id"
      (by decide)⟩

/-- The nested candidate loops produce exactly the product of the axis
lengths. -/
theorem candidates_length (us ps : List String) :
    (candidates us ps).length = us.length * ps.length := by
  induction us with
  | nil => simp [candidates]
  | cons u t ih =>
    simp only [candidates, List.flatMap_cons, List.length_append, List.length_map,
      List.length_cons] at *
    rw [ih]
    ring

/-- The loader's filter-then-map comprehension equals the usable lines,
capped when the limit is positive. -/
theorem load_wordlist_eq (lines : List String) (limit : Int) :
    load_wordlist lines limit =
      if 0 < limit then (usableLines lines).take limit.toNat else usableLines lines := by
  unfold load_wordlist usableLines
  rw [List.filter_map]
  rfl

/-- The loaded axis length is the capped count of usable lines. -/
theorem load_wordlist_length (lines : List String) (limit : Int) :
    (load_wordlist lines limit).length = capLen (usableLines lines).length limit := by
  rw [load_wordlist_eq]
  unfold capLen
  split
  · rw [List.length_take, Nat.min_comm]
  · rfl

/-- C5. With per-axis caps applied by the loader before product
expansion, the scan generates exactly
`min(m, Cm) * min(n, Cn)` candidates (`capLen` encodes "0 or negative
means no cap"), the reported `combos` total equals that number, a
single-axis scan loads exactly `min(n, Cn)` entries, and the completed
scan yields one outcome per candidate. -/
theorem c5_cardinality (fu fp : List String) (cm cn : Int) (sc : SuccessCheck)
    (retries : Nat) (backoff : ℚ)
    (probeOf : String × String → Nat → AttemptResult) :
    (candidates (load_wordlist fu cm) (load_wordlist fp cn)).length =
        capLen (usableLines fu).length cm * capLen (usableLines fp).length cn
    ∧ combos (load_wordlist fu cm) (load_wordlist fp cn) =
        (candidates (load_wordlist fu cm) (load_wordlist fp cn)).length
    ∧ (load_wordlist fp cn).length = capLen (usableLines fp).length cn
    ∧ (scanOutcomes sc retries backoff probeOf
          (candidates (load_wordlist fu cm) (load_wordlist fp cn))).length =
        (candidates (load_wordlist fu cm) (load_wordlist fp cn)).length := by
  refine ⟨?_, ?_, load_wordlist_length fp cn, by simp [scanOutcomes]⟩
  · rw [candidates_length, load_wordlist_length, load_wordlist_length]
  · rw [candidates_length]
    rfl

/-- C10. `load_wordlist` returns the file's lines in order, stripped,
with blank or whitespace-only lines dropped — every returned entry is
non-empty — truncated to the first `limit` entries when `limit > 0`, and
uncapped when `limit ≤ 0`; the resulting axis length counts usable
(non-blank) lines, capped. -/
theorem c10_load_wordlist (lines : List String) (limit : Int) :
    load_wordlist lines limit =
      (if 0 < limit then (usableLines lines).take limit.toNat else usableLines lines)
    ∧ (∀ s, s ∈ load_wordlist lines limit → s ≠ "")
    ∧ (0 < limit →
        (load_wordlist lines limit).length = min (usableLines lines).length limit.toNat)
    ∧ (limit ≤ 0 → load_wordlist lines limit = usableLines lines) := by
  refine ⟨load_wordlist_eq lines limit, ?_, ?_, ?_⟩
  · intro s hs
    rw [load_wordlist_eq] at hs
    have hs2 : s ∈ usableLines lines := by
      by_cases h : 0 < limit
      · rw [if_pos h] at hs
        exact List.take_subset _ _ hs
      · rw [if_neg h] at hs
        exact hs
    have := List.of_mem_filter hs2
    simpa using this
  · intro h
    rw [load_wordlist_length]
    unfold capLen
    rw [if_pos h]
  · intro h
    rw [load_wordlist_eq, if_neg (by omega)]

/-- Witness for C10 on a concrete wordlist with padding, a blank line
and a whitespace-only line, capped at 2: the first two usable entries
are returned, both non-empty. -/
theorem c10_load_wordlist_witness :
    load_wordlist ["  a ", "", " ", "b", "c"] 2 =
      (usableLines ["  a ", "", " ", "b", "c"]).take 2
    ∧ ("a" ∈ load_wordlist ["  a ", "", " ", "b", "c"] 2 → "a" ≠ "")
    ∧ (load_wordlist ["  a ", "", " ", "b", "c"] 2).length =
        min (usableLines ["  a ", "", " ", "b", "c"]).length 2 :=
  ⟨by
    have h := (c10_load_wordlist ["  a ", "", " ", "b", "c"] 2).1
    rw [if_pos (by decide)] at h
    exact h,
   fun hm => (c10_load_wordlist ["  a ", "", " ", "b", "c"] 2).2.1 "a" hm,
   (c10_load_wordlist ["  a ", "", " ", "b", "c"] 2).2.2.1 (by decide)⟩

/-- Helper: the candidate product with an empty password axis is empty. -/
theorem candidates_nil_right (us : List String) : candidates us [] = [] := by
  induction us with
  | nil => rfl
  | cons u t ih =>
    rw [candidates] at *
    simp

/-- Helper: with an empty axis, `main` reports nothing-to-do right after
the optional baseline probe. -/
theorem mainEvents_empty (kw : Option String) (nb : Bool)
    (uf pf : Option (List String)) (mu mp : Int)
    (h : load_wordlist_file uf mu = [] ∨ load_wordlist_file pf mp = []) :
    mainEvents kw nb uf pf mu mp =
      (if (kw.getD "" == "") && !nb then [Event.net_baseline] else [])
        ++ [Event.report_nothing] := by
  unfold mainEvents
  have hcond : ((load_wordlist_file uf mu).isEmpty
      || (load_wordlist_file pf mp).isEmpty) = true := by
    rcases h with h | h <;> simp [h]
  simp only [hcond, if_true]

/-- Counterexample to C7 as stated: with baseline detection enabled (no
success keyword, `--no-baseline` absent) and a missing username
wordlist, `main` performs the baseline network fetch *before* loading
the wordlists, so network activity precedes the nothing-to-do report. -/
theorem c7_empty_axis_cex :
    mainEvents none false none (some ["admin"]) 0 0 =
      [Event.net_baseline, Event.report_nothing]
    ∧ Event.isNetwork .net_baseline = true
    ∧ ((mainEvents none false none (some ["admin"]) 0 0).takeWhile
        (fun e => !(e == Event.report_nothing))).any Event.isNetwork = true :=
  ⟨by decide, rfl, by decide⟩

/-- C7 (amended: a missing or unreadable wordlist yields an empty axis
and an empty axis means zero candidates and an immediate nothing-to-do
report with no candidate probe issued; however the baseline auto-probe,
when enabled, has already run before the wordlists are even loaded, so
the run does not always terminate before *all* network activity). -/
theorem c7_empty_axis (kw : Option String) (nb : Bool)
    (uf pf : Option (List String)) (mu mp lim : Int)
    (h : load_wordlist_file uf mu = [] ∨ load_wordlist_file pf mp = []) :
    load_wordlist_file none lim = []
    ∧ candidates (load_wordlist_file uf mu) (load_wordlist_file pf mp) = []
    ∧ (∃ pre, mainEvents kw nb uf pf mu mp = pre ++ [Event.report_nothing]
        ∧ ∀ e ∈ pre, e = Event.net_baseline)
    ∧ (∀ u p, Event.net_probe u p ∉ mainEvents kw nb uf pf mu mp) := by
  refine ⟨rfl, ?_, ?_, ?_⟩
  · rcases h with h | h
    · rw [h]
      rfl
    · rw [h]
      exact candidates_nil_right _
  · refine ⟨if (kw.getD "" == "") && !nb then [Event.net_baseline] else [],
      mainEvents_empty kw nb uf pf mu mp h, ?_⟩
    intro e he
    split at he
    · simp at he
      exact he
    · simp at he
  · intro u p
    rw [mainEvents_empty kw nb uf pf mu mp h]
    simp only [List.mem_append, List.mem_singleton]
    rintro (hin | hin)
    · split at hin <;> simp_all
    · exact Event.noConfusion hin

/-- Witness for the amended C7: missing username wordlist, baseline
disabled; the loader yields an empty axis, there are zero candidates,
and no probe event occurs. -/
theorem c7_empty_axis_witness :
    load_wordlist_file none 0 = []
    ∧ candidates (load_wordlist_file none 0) (load_wordlist_file (some ["x"]) 0) = []
    ∧ (∀ u p, Event.net_probe u p ∉ mainEvents none true none (some ["x"]) 0 0) :=
  ⟨(c7_empty_axis none true none (some ["x"]) 0 0 0 (Or.inl rfl)).1,
   (c7_empty_axis none true none (some ["x"]) 0 0 0 (Or.inl rfl)).2.1,
   (c7_empty_axis none true none (some ["x"]) 0 0 0 (Or.inl rfl)).2.2.2⟩

/-- C6. During any scan with concurrency ceiling `C`, no reachable state
of the semaphore-gated dispatcher has more than `C` probes executing
their network call, regardless of the number of candidates `n`. -/
theorem c6_concurrency_bound (c n : Nat) (s : DispatchState)
    (h : DispatchReachable c n s) : s.running ≤ c := by
  suffices hinv : s.permits + s.running = c by omega
  unfold DispatchReachable at h
  induction h with
  | refl => rfl
  | tail hst step ih =>
    cases step with
    | acquire hw hp =>
      dsimp only at *
      omega
    | release hr =>
      dsimp only at *
      omega

/-- Witness for C6: with ceiling 2 and 3 tasks, the state after one
acquire step is reachable and has 1 ≤ 2 running probes. -/
theorem c6_concurrency_bound_witness :
    DispatchReachable 2 3 ⟨1, 2, 1, 0⟩
    ∧ (⟨1, 2, 1, 0⟩ : DispatchState).running ≤ 2 := by
  have hreach : DispatchReachable 2 3 ⟨1, 2, 1, 0⟩ :=
    Relation.ReflTransGen.single
      (DispatchStep.acquire (initDispatch 2 3) (by decide) (by decide))
  exact ⟨hreach, c6_concurrency_bound 2 3 ⟨1, 2, 1, 0⟩ hreach⟩

end PYSINT
